import Mathlib

/-!
Shallow embedding of the Conservation Atlas asynchronous pipeline core:
the event deduplication/clustering engine (`eventCluster.ts`), the
geolocation validator (`geoValidation.ts`), the SQS consumer loop
(`consumer.ts` / `sqsService.ts`) and the extraction job
(`extract.job.ts`).

Conventions of the embedding:
* JavaScript numbers are modelled as `ℚ` (all arithmetic the claims are
  about is exact decimal arithmetic).
* Nullable fields are `Option`; JavaScript truthiness is modelled
  explicitly (`jsNumTruthy`, `jsStrTruthy`): `0`, `null` and `""` are
  falsy, `Date` objects are always truthy.
* The Haversine distance (`calculateDistanceKm`, transcendental) is an
  explicit function parameter `dist`; theorems that need it assume only
  `0 ≤ dist …`, which holds for the real Haversine formula.
* Database tables are lists inside a `DBState`; Prisma queries become
  list filters; transactions become pure state updates.
* Log statements carry no state and are dropped; issue strings are
  modelled as tags (only their identity/count is ever read).
-/

namespace ConservationAtlas

/-! ## JavaScript truthiness helpers -/

/-- Truthiness of a nullable JS number: `null` and `0` are falsy. -/
def jsNumTruthy (x : Option ℚ) : Bool :=
  match x with
  | none => false
  | some v => v ≠ 0

/-- Truthiness of a nullable JS string: `null` and `""` are falsy. -/
def jsStrTruthy (x : Option String) : Bool :=
  match x with
  | none => false
  | some s => s ≠ ""

/-! ## `eventCluster.ts` — configuration (CLUSTER_CONFIG) -/

def TIME_WINDOW_HOURS : ℚ := 72
def MAX_DISTANCE_KM : ℚ := 50
def MIN_SIMILARITY_SCORE : ℚ := 7/10
def SOURCE_CONFIDENCE_BOOST : ℚ := 5/100
def MAX_BOOSTED_CONFIDENCE : ℚ := 98/100

/-! ## Data model

`EventRec` is a row of the `events` table restricted to the columns the
pipeline core reads or writes (`EventForClustering` plus `status`,
`mergedIntoId`, `updatedAt`).  Timestamps (`createdAt`, `startDate`,
`updatedAt`) are milliseconds-since-epoch as in JS `Date.getTime()`. -/

structure EventRec where
  id : ℕ
  title : String
  eventTypePrimary : String
  severityLevel : ℕ
  confidenceExtraction : ℚ
  country : String
  admin1 : Option String
  latitude : Option ℚ
  longitude : Option ℚ
  startDate : Option ℚ
  summaryShort : String
  sourceCount : ℕ
  createdAt : ℚ
  status : String
  mergedIntoId : Option ℕ
  updatedAt : ℚ
  deriving DecidableEq, Repr

/-- A row of the `event_sources` table (the columns the core touches). -/
structure SourceRec where
  id : ℕ
  snippet : Option String
  eventId : Option ℕ
  extractionStatus : Option String
  deriving DecidableEq, Repr

/-- A row of the append-only `event_merges` audit table. -/
structure MergeRow where
  primaryEventId : ℕ
  mergedEventId : ℕ
  similarityScore : ℚ
  mergedAt : ℚ
  deriving DecidableEq, Repr

/-- A row of the `source_extractions` table. -/
structure ExtractionRow where
  sourceId : ℕ
  eventId : ℕ
  qualityScore : ℚ
  deriving DecidableEq, Repr

/-- A follow-up job envelope placed on the cluster queue. -/
structure ClusterEnvelope where
  eventId : ℕ
  correlationId : String
  deriving DecidableEq, Repr

/-- The persistent store shared by the extraction job and the
clustering engine, plus the outgoing queue. -/
structure DBState where
  events : List EventRec
  sources : List SourceRec
  extractions : List ExtractionRow
  merges : List MergeRow
  queue : List ClusterEnvelope
  nextId : ℕ
  deriving DecidableEq, Repr

structure ClusterResult where
  action : String
  primaryEventId : ℕ
  mergedEventIds : List ℕ
  confidenceBoost : ℚ
  sourceCount : ℕ
  deriving DecidableEq, Repr

/-! ## Text similarity (tokenize / STOP_WORDS / Jaccard) -/

def STOP_WORDS : List String :=
  ["the", "a", "an", "and", "or", "but", "in", "on", "at", "to", "for",
   "of", "with", "by", "from", "as", "is", "was", "are", "were", "been",
   "be", "have", "has", "had", "do", "does", "did", "will", "would", "could",
   "should", "may", "might", "must", "shall", "can", "need", "this", "that",
   "these", "those", "than", "when", "where", "which", "who", "whom", "whose"]

/-- JS `\w` character class: ASCII letters, digits and underscore. -/
def isWordChar (c : Char) : Bool :=
  c.isAlpha || c.isDigit || c = '_'

/-- Whitespace as matched by the `\s`-based split (the characters that
occur in the data). -/
def wsChar (c : Char) : Bool :=
  c = ' ' || c = '\t' || c = '\n'

/-- Split a character list on whitespace (the `split(/\s+/)` step;
empty fragments are removed by the length filter just as in JS). -/
def splitWsAux : List Char → List Char → List String
  | [], acc => [String.mk acc.reverse]
  | c :: cs, acc =>
    if wsChar c then String.mk acc.reverse :: splitWsAux cs []
    else splitWsAux cs (c :: acc)

/-- `tokenize`: lowercase, replace non-word non-space characters by a
space, split on whitespace, drop words of length ≤ 2 and stop words. -/
def tokenize (text : String) : List String :=
  let lowered := text.toList.map Char.toLower
  let cleaned := lowered.map (fun c => if isWordChar c || wsChar c then c else ' ')
  ((splitWsAux cleaned []).filter (fun w => w.length > 2)).filter
    (fun w => ¬ STOP_WORDS.contains w)

/-- `calculateTextSimilarity`: Jaccard index on the two word sets. -/
def calculateTextSimilarity (t1 t2 : String) : ℚ :=
  let w1 := (tokenize t1).dedup
  let w2 := (tokenize t2).dedup
  if w1.length = 0 ∧ w2.length = 0 then 1
  else if w1.length = 0 ∨ w2.length = 0 then 0
  else
    let inter := w1.filter (fun w => w2.contains w)
    let union := (w1 ++ w2).dedup
    (inter.length : ℚ) / (union.length : ℚ)

/-! ## `calculateSimilarity`

The two accumulators `score` and `weights` of the source are modelled as
a pair built by summing one contribution per component; `dist` stands
for `calculateDistanceKm` (Haversine). -/

/-- The geographic component's `(score, weight)` contribution
(source steps 2): distance-based when all four coordinates are truthy,
else the shared-admin1 bonus, else score 0 — the 0.3 weight is added in
every branch. -/
def simGeoPart (dist : ℚ → ℚ → ℚ → ℚ → ℚ) (e1 e2 : EventRec) : ℚ × ℚ :=
  if jsNumTruthy e1.latitude ∧ jsNumTruthy e1.longitude ∧
     jsNumTruthy e2.latitude ∧ jsNumTruthy e2.longitude then
    let d := dist (e1.latitude.getD 0) (e1.longitude.getD 0)
                  (e2.latitude.getD 0) (e2.longitude.getD 0)
    (max 0 (1 - d / MAX_DISTANCE_KM) * (3/10), 3/10)
  else if jsStrTruthy e1.admin1 ∧ jsStrTruthy e2.admin1 ∧ e1.admin1 = e2.admin1 then
    (2/10, 3/10)
  else
    (0, 3/10)

/-- The temporal component's `(score, weight)` contribution (source
step 5): day-difference decay over a week when both start dates exist,
else score 0 — the 0.1 weight is added in both branches. -/
def simTemporalPart (e1 e2 : EventRec) : ℚ × ℚ :=
  match e1.startDate, e2.startDate with
  | some d1, some d2 =>
    let daysDiff := |d1 - d2| / (1000 * 60 * 60 * 24)
    (max 0 (1 - daysDiff / 7) * (1/10), 1/10)
  | _, _ => (0, 1/10)

/-- The `(score, weights)` accumulator pair at the end of
`calculateSimilarity`, one summand per component in source order. -/
def simParts (dist : ℚ → ℚ → ℚ → ℚ → ℚ) (e1 e2 : EventRec) : ℚ × ℚ :=
  let typePart : ℚ × ℚ :=
    (if e1.eventTypePrimary = e2.eventTypePrimary then 2/10 else 0, 2/10)
  let geoPart : ℚ × ℚ := simGeoPart dist e1 e2
  let titlePart : ℚ × ℚ :=
    (calculateTextSimilarity e1.title e2.title * (25/100), 25/100)
  let summaryPart : ℚ × ℚ :=
    (calculateTextSimilarity e1.summaryShort e2.summaryShort * (15/100), 15/100)
  let temporalPart : ℚ × ℚ := simTemporalPart e1 e2
  (typePart.1 + geoPart.1 + titlePart.1 + summaryPart.1 + temporalPart.1,
   typePart.2 + geoPart.2 + titlePart.2 + summaryPart.2 + temporalPart.2)

/-- `calculateSimilarity`: `weights > 0 ? score / weights : 0`. -/
def calculateSimilarity (dist : ℚ → ℚ → ℚ → ℚ → ℚ) (e1 e2 : EventRec) : ℚ :=
  let p := simParts dist e1 e2
  if p.2 > 0 then p.1 / p.2 else 0

/-! ## Candidate search (`findCandidateMatches`) -/

/-- Stable insertion used by `sortBy`. -/
def insertBy {α : Type} (le : α → α → Bool) (a : α) : List α → List α
  | [] => [a]
  | b :: bs => if le a b then a :: b :: bs else b :: insertBy le a bs

/-- Stable insertion sort (models the JS `sort` / `orderBy` uses). -/
def sortBy {α : Type} (le : α → α → Bool) : List α → List α
  | [] => []
  | a :: as => insertBy le a (sortBy le as)

/-- The Prisma candidate query of `findCandidateMatches`: same primary
type and country, within the trailing 72 h window, excluding the event
itself, newest first, limited to 50 rows.  (Note: the query does not
filter on `status`.) -/
def candidateQuery (st : DBState) (event : EventRec) : List EventRec :=
  let timeWindowStart := event.createdAt - TIME_WINDOW_HOURS * 60 * 60 * 1000
  ((sortBy (fun a b => a.createdAt ≥ b.createdAt)
      (st.events.filter (fun c =>
        c.id ≠ event.id ∧
        c.eventTypePrimary = event.eventTypePrimary ∧
        c.country = event.country ∧
        c.createdAt ≥ timeWindowStart)))).take 50

/-- The in-memory narrowing of `findCandidateMatches` applied to the
query result: distance filter when the new event has (truthy)
coordinates, else admin1 filter. -/
def narrowCandidates (dist : ℚ → ℚ → ℚ → ℚ → ℚ) (event : EventRec)
    (candidates : List EventRec) : List EventRec :=
  if jsNumTruthy event.latitude ∧ jsNumTruthy event.longitude then
    candidates.filter (fun c =>
      if ¬ (jsNumTruthy c.latitude ∧ jsNumTruthy c.longitude) then true
      else
        dist (event.latitude.getD 0) (event.longitude.getD 0)
             (c.latitude.getD 0) (c.longitude.getD 0) ≤ MAX_DISTANCE_KM)
  else
    candidates.filter (fun c =>
      c.admin1 = event.admin1 ∨ ¬ jsStrTruthy event.admin1 ∨ ¬ jsStrTruthy c.admin1)

def findCandidateMatches (dist : ℚ → ℚ → ℚ → ℚ → ℚ) (st : DBState)
    (event : EventRec) : List EventRec :=
  narrowCandidates dist event (candidateQuery st event)

/-! ## Merge (`mergeEvents`) -/

/-- The update applied to the surviving event inside `mergeEvents`:
boosted (capped) confidence, summed `source_count`, `updatedAt`, and
severity raised to the higher of the two. -/
def mergedPrimary (existing newEvent : EventRec) (now : ℚ) : EventRec :=
  { existing with
    confidenceExtraction :=
      min (existing.confidenceExtraction +
            (newEvent.sourceCount : ℚ) * SOURCE_CONFIDENCE_BOOST)
          MAX_BOOSTED_CONFIDENCE
    sourceCount := existing.sourceCount + newEvent.sourceCount
    updatedAt := now
    severityLevel :=
      if newEvent.severityLevel > existing.severityLevel
      then newEvent.severityLevel else existing.severityLevel }

/-- The update applied to the absorbed event inside `mergeEvents`. -/
def mergedAbsorbed (existing newEvent : EventRec) : EventRec :=
  { newEvent with mergedIntoId := some existing.id, status := "merged" }

/-- `mergeEvents` (single transaction): update the primary, transfer the
absorbed event's source rows, flip the absorbed event to `merged`, and
append the audit row.  The audit `INSERT` writes the literal `${0}` as
`similarity_score`, exactly as the source does. -/
def mergeEvents (existing newEvent : EventRec) (st : DBState) (now : ℚ) :
    ClusterResult × DBState :=
  let newSourceCount := existing.sourceCount + newEvent.sourceCount
  let confidenceBoost := (newEvent.sourceCount : ℚ) * SOURCE_CONFIDENCE_BOOST
  let st' : DBState :=
    { st with
      events := st.events.map (fun e =>
        if e.id = existing.id then mergedPrimary existing newEvent now
        else if e.id = newEvent.id then mergedAbsorbed existing newEvent
        else e)
      sources := st.sources.map (fun s =>
        if s.eventId = some newEvent.id then { s with eventId := some existing.id }
        else s)
      merges := st.merges ++
        [{ primaryEventId := existing.id, mergedEventId := newEvent.id,
           similarityScore := 0, mergedAt := now }] }
  ({ action := "merged", primaryEventId := existing.id,
     mergedEventIds := [newEvent.id], confidenceBoost := confidenceBoost,
     sourceCount := newSourceCount }, st')

/-! ## `clusterEvent` -/

/-- `loadEventForClustering`: `findUnique` on the events table.  (No
check on `status`.) -/
def loadEventForClustering (st : DBState) (eventId : ℕ) : Option EventRec :=
  st.events.find? (fun e => e.id = eventId)

/-- Best match above threshold: filter by `MIN_SIMILARITY_SCORE`, sort
by similarity descending, take the head (JS `[0]`). -/
def bestMatchOf (scored : List (EventRec × ℚ)) : Option (EventRec × ℚ) :=
  (sortBy (fun a b => a.2 ≥ b.2) (scored.filter (fun sc => sc.2 ≥ MIN_SIMILARITY_SCORE))).head?

/-- `clusterEvent`: load the event, find and score candidates, merge
into the best match above threshold or report `new`.  Returns `none`
when the event does not exist (the source throws there). -/
def clusterEvent (dist : ℚ → ℚ → ℚ → ℚ → ℚ) (now : ℚ) (eventId : ℕ)
    (st : DBState) : Option (ClusterResult × DBState) :=
  match loadEventForClustering st eventId with
  | none => none
  | some newEvent =>
    let candidates := findCandidateMatches dist st newEvent
    if candidates.isEmpty then
      some ({ action := "new", primaryEventId := eventId, mergedEventIds := [],
              confidenceBoost := 0, sourceCount := newEvent.sourceCount }, st)
    else
      let scored := candidates.map (fun c => (c, calculateSimilarity dist newEvent c))
      match bestMatchOf scored with
      | none =>
        some ({ action := "new", primaryEventId := eventId, mergedEventIds := [],
                confidenceBoost := 0, sourceCount := newEvent.sourceCount }, st)
      | some best => some (mergeEvents best.1 newEvent st now)

/-! ## `geoValidation.ts` — data model -/

structure Geometry where
  coordinates : Option (ℚ × ℚ)
  precision : Option String
  deriving DecidableEq, Repr

structure AdminInfo where
  country : String
  admin1 : Option String
  admin2 : Option String
  locality : Option String
  deriving DecidableEq, Repr

structure ExtractionLocation where
  geometry : Option Geometry
  admin : AdminInfo
  description : Option String
  deriving DecidableEq, Repr

/-- The structured payload returned by the extraction capability,
restricted to the fields the pipeline core reads. -/
structure Extraction where
  title : String
  eventTypePrimary : String
  severityLevel : ℕ
  confidenceExtraction : ℚ
  confidenceGeolocation : ℚ
  location : ExtractionLocation
  temporalStart : Option ℚ
  temporalEnd : Option ℚ
  summaryShort : String
  summaryDetailed : String
  deriving DecidableEq, Repr

/-- Validation issues; the source pushes descriptive strings, of which
only identity and count are ever read (`issues.length`). -/
inductive GeoIssue where
  | invalidLatitude
  | invalidLongitude
  | maybeSwapped
  | countryMismatch
  | oceanPoint
  | precisionIssue
  deriving DecidableEq, Repr

inductive FixAction where
  | nullify
  | swap
  | useCentroid
  deriving DecidableEq, Repr

structure GeoValidationResult where
  valid : Bool
  issues : List GeoIssue
  adjustedConfidence : ℚ
  shouldNullifyCoords : Bool
  suggestedFix : Option FixAction
  deriving DecidableEq, Repr

/-- `COUNTRY_BOUNDS`: approximate bounding boxes
`[minLng, minLat, maxLng, maxLat]`. -/
def COUNTRY_BOUNDS : List (String × (ℚ × ℚ × ℚ × ℚ)) :=
  [("united states", (-125, 24, -66, 49)),
   ("usa", (-125, 24, -66, 49)),
   ("canada", (-141, 41, -52, 84)),
   ("brazil", (-74, -34, -32, 6)),
   ("australia", (112, -44, 154, -10)),
   ("china", (73, 18, 135, 54)),
   ("india", (68, 6, 97, 36)),
   ("russia", (19, 41, 180, 82)),
   ("united kingdom", (-8, 49, 2, 61)),
   ("france", (-5, 41, 10, 51)),
   ("germany", (5, 47, 16, 55)),
   ("japan", (123, 24, 146, 46)),
   ("indonesia", (95, -11, 141, 6)),
   ("mexico", (-118, 14, -86, 33)),
   ("south africa", (16, -35, 33, -22)),
   ("kenya", (33, -5, 42, 5)),
   ("tanzania", (29, -12, 41, -1)),
   ("peru", (-82, -18, -68, 0)),
   ("colombia", (-79, -4, -67, 14)),
   ("democratic republic of congo", (12, -14, 32, 6)),
   ("madagascar", (43, -26, 51, -12)),
   ("new zealand", (166, -47, 179, -34)),
   ("norway", (4, 57, 32, 71)),
   ("sweden", (11, 55, 24, 69)),
   ("finland", (20, 59, 32, 70)),
   ("italy", (6, 36, 19, 47)),
   ("spain", (-10, 35, 5, 44)),
   ("portugal", (-10, 36, -6, 42)),
   ("philippines", (116, 5, 127, 21)),
   ("vietnam", (102, 8, 110, 24)),
   ("thailand", (97, 5, 106, 21)),
   ("malaysia", (99, 0, 120, 8)),
   ("singapore", (103, 1, 104, 2)),
   ("costa rica", (-86, 8, -82, 11)),
   ("panama", (-83, 7, -77, 10)),
   ("ecuador", (-81, -5, -75, 2)),
   ("chile", (-76, -56, -66, -17)),
   ("argentina", (-74, -55, -53, -21)),
   ("egypt", (24, 22, 37, 32)),
   ("morocco", (-13, 27, -1, 36)),
   ("nigeria", (2, 4, 15, 14)),
   ("ethiopia", (33, 3, 48, 15)),
   ("botswana", (20, -27, 30, -17)),
   ("namibia", (11, -29, 25, -17)),
   ("iceland", (-24, 63, -13, 67)),
   ("greenland", (-73, 59, -11, 84))]

structure CountryCheck where
  matchesBounds : Bool
  severeMismatch : Bool
  deriving DecidableEq, Repr

/-- `checkCountryCoordinateMatch`.  The source compares
`sqrt(lngDist² + latDist²) > 30`; as both distances are non-negative
this is equivalent to `lngDist² + latDist² > 900`, which is how the
severe-mismatch test is embedded (avoiding an irrational square root). -/
def checkCountryCoordinateMatch (country : String) (lng lat : ℚ) : CountryCheck :=
  let normalized := country.toLower.trim
  match COUNTRY_BOUNDS.find? (fun p => p.1 = normalized) with
  | none => { matchesBounds := true, severeMismatch := false }
  | some b =>
    let minLng := b.2.1
    let minLat := b.2.2.1
    let maxLng := b.2.2.2.1
    let maxLat := b.2.2.2.2
    let buffer : ℚ := 2
    if lng ≥ minLng - buffer ∧ lng ≤ maxLng + buffer ∧
       lat ≥ minLat - buffer ∧ lat ≤ maxLat + buffer then
      { matchesBounds := true, severeMismatch := false }
    else
      let lngDist := min |lng - minLng| |lng - maxLng|
      let latDist := min |lat - minLat| |lat - maxLat|
      { matchesBounds := false, severeMismatch := lngDist ^ 2 + latDist ^ 2 > 900 }

/-- `checkIfLikelyOcean`: the first JS `if` only returns (false) when its
nested condition also holds, otherwise control falls through. -/
def checkIfLikelyOcean (lng lat : ℚ) : Bool :=
  if (lng > 140 ∨ lng < -120) ∧ (lat > -60 ∧ lat < 60) then false
  else if lng > -40 ∧ lng < -20 ∧ lat > -30 ∧ lat < 40 then true
  else if lng > 50 ∧ lng < 90 ∧ lat > -40 ∧ lat < 0 then false
  else if lat < -60 then true
  else if lat > 80 then true
  else false

/-- JS `String.prototype.includes` (substring test) for a nonempty
needle, via `splitOn`. -/
def strIncludes (hay sub : String) : Bool :=
  (hay.splitOn sub).length > 1

/-- `isMarineEventExpected`: marine event types, or marine keywords in
the locality/description text (`filter(Boolean)` drops null and `""`). -/
def isMarineEventExpected (ex : Extraction) : Bool :=
  let marineTypes := ["coral_bleaching", "oil_spill", "pollution"]
  if marineTypes.contains ex.eventTypePrimary then true
  else
    let pieces := ([ex.location.admin.locality, ex.location.description].filterMap id).filter
      (fun s => s ≠ "")
    let locationText := (String.intercalate " " pieces).toLower
    ["ocean", "sea", "reef", "marine", "coast", "island", "bay", "gulf"].any
      (fun kw => strIncludes locationText kw)

/-- `validateGeolocation`: the five checks in source order, multiplying
penalties into `adjustedConfidence`, then the final
`nullify ⇒ 0 / else max(0.1, ·)` step. -/
def validateGeolocation (ex : Extraction) : GeoValidationResult :=
  match ex.location.geometry with
  | none =>
    { valid := true, issues := [], adjustedConfidence := 1/2,
      shouldNullifyCoords := false, suggestedFix := none }
  | some g =>
    match g.coordinates with
    | none =>
      { valid := true, issues := [], adjustedConfidence := 1/2,
        shouldNullifyCoords := false, suggestedFix := none }
    | some c =>
      let lng := c.1
      let lat := c.2
      -- Check 1: valid coordinate ranges
      let latBad := lat < -90 ∨ lat > 90
      let issues1 : List GeoIssue := if latBad then [GeoIssue.invalidLatitude] else []
      let fix1 : Option FixAction := if latBad then some FixAction.nullify else none
      let lngBad := lng < -180 ∨ lng > 180
      let issues2 := issues1 ++ (if lngBad then [GeoIssue.invalidLongitude] else [])
      let nullify := latBad ∨ lngBad
      let fix2 := if lngBad then some FixAction.nullify else fix1
      -- Check 2: lat/lng possibly swapped
      let swapped := ¬ nullify ∧ |lat| > 90 ∧ |lng| ≤ 90
      let issues3 := issues2 ++ (if swapped then [GeoIssue.maybeSwapped] else [])
      let conf3 : ℚ := if swapped then 1 * (3/10) else 1
      let fix3 := if swapped then some FixAction.swap else fix2
      -- Check 3: country-coordinate consistency
      let countryCheck := checkCountryCoordinateMatch ex.location.admin.country lng lat
      let countryBad := ¬ nullify ∧ ex.location.admin.country ≠ "" ∧ ¬ countryCheck.matchesBounds
      let issues4 := issues3 ++ (if countryBad then [GeoIssue.countryMismatch] else [])
      let conf4 := if countryBad then conf3 * (4/10) else conf3
      let fix4 := if countryBad ∧ countryCheck.severeMismatch
                  then some FixAction.useCentroid else fix3
      -- Check 4: point in ocean
      let ocean := ¬ nullify ∧ checkIfLikelyOcean lng lat ∧ ¬ isMarineEventExpected ex
      let issues5 := issues4 ++ (if ocean then [GeoIssue.oceanPoint] else [])
      let conf5 := if ocean then conf4 * (5/10) else conf4
      -- Check 5: precision sanity
      let precBad := g.precision = some "exact" ∧ issues5.length > 0
      let issues6 := issues5 ++ (if precBad then [GeoIssue.precisionIssue] else [])
      let conf6 := if precBad then conf5 * (7/10) else conf5
      -- Final confidence
      let finalConf := if nullify then 0 else max (1/10) conf6
      { valid := issues6.length = 0, issues := issues6,
        adjustedConfidence := finalConf, shouldNullifyCoords := nullify,
        suggestedFix := fix4 }

/-! ## `consumer.ts` / `sqsService.ts` — backoff, envelopes, dispatch -/

def MAX_APP_RETRIES : ℕ := 2
def BASE_RETRY_DELAY_SECONDS : ℚ := 30

/-- The un-jittered base delay `BASE * 2^max(0, attempt-1)`; truncated
`ℕ` subtraction is exactly `Math.max(0, attempt - 1)`. -/
def backoffBase (attempt : ℕ) : ℚ :=
  BASE_RETRY_DELAY_SECONDS * 2 ^ (attempt - 1)

/-- `computeBackoffSeconds`; `r ∈ [0,1)` stands for `Math.random()`. -/
def computeBackoffSeconds (attempt : ℕ) (r : ℚ) : ℚ :=
  let base := backoffBase attempt
  let jitter := r * (2/10) * base
  min (base + jitter) (15 * 60)

/-- `requeueSoon` clamps the visibility delay to `[0, 12 h]`. -/
def requeueClamp (delaySeconds : ℚ) : ℚ :=
  max 0 (min delaySeconds (12 * 60 * 60))

/-- A JSON value (result of `JSON.parse`). -/
inductive Json where
  | null
  | bool (b : Bool)
  | num (q : ℚ)
  | str (s : String)
  | arr (xs : List Json)
  | obj (fields : List (String × Json))

def getField : Json → String → Option Json
  | Json.obj fields, name => (fields.find? (fun p => p.1 = name)).map (fun p => p.2)
  | _, _ => none

def JOB_TYPES : List String :=
  ["INGEST", "EXTRACT", "CLUSTER", "GEO_JOIN", "ALERTS",
   "VIDEO_BRIEF", "CLASSROOM_EPISODE", "SMOKE_TEST"]

/-- `isJobMessage`: the envelope type guard.  Non-object values fail
(either at the `typeof` test or because field access yields
`undefined`); `payload != null` rejects both absent and `null`. -/
def isJobMessage (x : Json) : Bool :=
  match x with
  | Json.obj _ =>
    (match getField x "version" with
     | some (Json.str s) => s = "job_v1" | _ => false) &&
    (match getField x "job_type" with
     | some (Json.str s) => JOB_TYPES.contains s | _ => false) &&
    (match getField x "job_id" with
     | some (Json.str _) => true | _ => false) &&
    (match getField x "correlation_id" with
     | some (Json.str _) => true | _ => false) &&
    (match getField x "enqueued_at" with
     | some (Json.str _) => true | _ => false) &&
    (match getField x "payload" with
     | some Json.null => false | some _ => true | none => false)
  | _ => false

/-- The parse step of `receiveMessages`: `parsed` is set only when the
body parsed (`body = some v`, else `JSON.parse` threw) and the guard
accepted it; otherwise it is left undefined. -/
def parsedEnvelope (body : Option Json) : Option Json :=
  match body with
  | none => none
  | some v => if isJobMessage v then some v else none

/-- Externally observable effects of `handleMessage`. -/
inductive ConsumerAction where
  | deleteMsg
  | invokeHandler (jobType : String)
  | changeVisibility (delaySeconds : ℚ)
  deriving DecidableEq, Repr

def jsonJobType (msg : Json) : String :=
  match getField msg "job_type" with
  | some (Json.str s) => s
  | _ => ""

def jsonAttempt (msg : Json) : Option ℕ :=
  match getField msg "attempt" with
  | some (Json.num q) => some q.num.toNat
  | _ => none

/-- `handleMessage`.  The handler invocation itself is external work:
`outcome = none` models success, `outcome = some b` models a thrown
error whose `isRetryableError` classification is `b` (that classifier
inspects opaque runtime error objects).  `r` is the jitter draw.  The
two retryable branches of the source (attempts exhausted or not) differ
only in their log line, so both yield the same visibility change. -/
def handleMessage (parsed : Option Json) (receiveCount : Option ℕ)
    (outcome : Option Bool) (r : ℚ) : List ConsumerAction :=
  match parsed with
  | none => [ConsumerAction.deleteMsg]
  | some msg =>
    let jt := jsonJobType msg
    if ¬ JOB_TYPES.contains jt then [ConsumerAction.deleteMsg]
    else
      let attempt := receiveCount.getD ((jsonAttempt msg).getD 0 + 1)
      match outcome with
      | none => [ConsumerAction.invokeHandler jt, ConsumerAction.deleteMsg]
      | some retryable =>
        if ¬ retryable then
          [ConsumerAction.invokeHandler jt, ConsumerAction.deleteMsg]
        else if attempt ≥ MAX_APP_RETRIES then
          [ConsumerAction.invokeHandler jt,
           ConsumerAction.changeVisibility (requeueClamp (computeBackoffSeconds attempt r))]
        else
          [ConsumerAction.invokeHandler jt,
           ConsumerAction.changeVisibility (requeueClamp (computeBackoffSeconds attempt r))]

/-! ## `extract.job.ts` -/

def MAX_SOURCE_CHARS : ℕ := 20000
def MIN_SOURCE_CHARS : ℕ := 200

def truncateText (text : String) (maxChars : ℕ) : String :=
  if text.length ≤ maxChars then text
  else text.take maxChars ++ "\n\n[TRUNCATED]"

/-- JS `String.prototype.trim`: strip whitespace from both ends. -/
def jsTrim (s : String) : String :=
  String.mk (((s.toList.dropWhile wsChar).reverse.dropWhile wsChar).reverse)

/-- Externally observable write/call effects of `runExtractJob`. -/
inductive ExtractAction where
  | capabilityCall (strict : Bool)
  | markStatus (status : String)
  | createEvent (eventId : ℕ)
  | storeExtraction (sourceId : ℕ)
  | enqueueCluster (eventId : ℕ)
  deriving DecidableEq, Repr

structure ExtractResult where
  eventId : ℕ
  confidence : ℚ
  geo : GeoValidationResult
  deriving DecidableEq, Repr

structure ExtractMsg where
  sourceId : ℕ
  forceReextract : Bool
  correlationId : String
  deriving DecidableEq, Repr

def countExtractions (st : DBState) (sourceId : ℕ) : ℕ :=
  (st.extractions.filter (fun row => row.sourceId = sourceId)).length

/-- `hasExistingExtraction`: `COUNT(*) ... WHERE source_id = ? > 0`. -/
def hasExistingExtraction (st : DBState) (sourceId : ℕ) : Bool :=
  countExtractions st sourceId > 0

def markSourceStatus (st : DBState) (sourceId : ℕ) (status : String) : DBState :=
  { st with sources := st.sources.map (fun s =>
      if s.id = sourceId then { s with extractionStatus := some status } else s) }

/-- Step 6 of the job: on invalid geolocation downgrade the geolocation
confidence and, when recommended, clear the coordinates. -/
def applyGeoValidation (ex : Extraction) (geo : GeoValidationResult) : Extraction :=
  if geo.valid then ex
  else
    let ex1 := { ex with confidenceGeolocation := geo.adjustedConfidence }
    if geo.shouldNullifyCoords then
      { ex1 with location := { ex1.location with geometry := none } }
    else ex1

/-- The event row created by `saveExtractionResult` (status defaults to
`active` in the schema; `source_count` starts at 1). -/
def eventFromExtraction (ex : Extraction) (eid : ℕ) (now : ℚ) : EventRec :=
  { id := eid
    title := ex.title
    eventTypePrimary := ex.eventTypePrimary
    severityLevel := ex.severityLevel
    confidenceExtraction := ex.confidenceExtraction
    country := ex.location.admin.country
    admin1 := ex.location.admin.admin1
    latitude := (ex.location.geometry.bind (fun g => g.coordinates)).map (fun c => c.2)
    longitude := (ex.location.geometry.bind (fun g => g.coordinates)).map (fun c => c.1)
    startDate := ex.temporalStart
    summaryShort := ex.summaryShort
    sourceCount := 1
    createdAt := now
    status := "active"
    mergedIntoId := none
    updatedAt := now }

/-- `saveExtractionResult` (one transaction): create the event, link the
source to it, and store the raw extraction row. -/
def saveExtractionResult (st : DBState) (sourceId : ℕ) (ex : Extraction)
    (quality now : ℚ) : ℕ × DBState :=
  let eid := st.nextId
  (eid,
   { st with
     events := st.events ++ [eventFromExtraction ex eid now]
     sources := st.sources.map (fun s =>
       if s.id = sourceId then { s with eventId := some eid } else s)
     extractions := st.extractions ++
       [{ sourceId := sourceId, eventId := eid, qualityScore := quality }]
     nextId := st.nextId + 1 })

/-- Steps 6–8 of the job after a schema-valid payload was obtained. -/
def finishExtraction (st : DBState) (msg : ExtractMsg) (quality now : ℚ)
    (ex : Extraction) (tr : List ExtractAction) :
    Except String (Option ExtractResult) × DBState × List ExtractAction :=
  let geo := validateGeolocation ex
  let ex' := applyGeoValidation ex geo
  let save := saveExtractionResult st msg.sourceId ex' quality now
  let eid := save.1
  let st2 := { save.2 with queue := (save.2).queue ++
      [{ eventId := eid, correlationId := msg.correlationId }] }
  (Except.ok (some { eventId := eid, confidence := ex'.confidenceExtraction, geo := geo }),
   st2,
   tr ++ [ExtractAction.createEvent eid, ExtractAction.storeExtraction msg.sourceId,
          ExtractAction.enqueueCluster eid])

/-- `runExtractJob`.  The external collaborators are parameters: `cap`
is the extraction capability (argument = strict retry flag),
`schemaValid` the AJV check against `event_extraction_v1`, `quality`
the source-quality heuristic's score.  `Except.error` models a thrown
error (with the store state at throw time). -/
def runExtractJob (cap : Bool → Extraction) (schemaValid : Extraction → Bool)
    (quality now : ℚ) (msg : ExtractMsg) (st : DBState) :
    Except String (Option ExtractResult) × DBState × List ExtractAction :=
  match st.sources.find? (fun s => s.id = msg.sourceId) with
  | none => (Except.error "Source not found", st, [])
  | some source =>
    if ¬ msg.forceReextract ∧ hasExistingExtraction st msg.sourceId then
      (Except.ok none, st, [])
    else
      let rawText := truncateText (source.snippet.getD "") MAX_SOURCE_CHARS
      if rawText = "" ∨ (jsTrim rawText).length < MIN_SOURCE_CHARS then
        (Except.ok none, markSourceStatus st msg.sourceId "too_short",
         [ExtractAction.markStatus "too_short"])
      else
        let ex1 := cap false
        if schemaValid ex1 then
          finishExtraction st msg quality now ex1 [ExtractAction.capabilityCall false]
        else
          let ex2 := cap true
          if schemaValid ex2 then
            finishExtraction st msg quality now ex2
              [ExtractAction.capabilityCall false, ExtractAction.capabilityCall true]
          else
            (Except.error "Invalid extraction JSON",
             markSourceStatus st msg.sourceId "extraction_failed",
             [ExtractAction.capabilityCall false, ExtractAction.capabilityCall true,
              ExtractAction.markStatus "extraction_failed"])

/-! ## Concrete fixtures used by witnesses and counterexamples -/

/-- A trivial stand-in distance function for scenarios in which no event
carries truthy coordinates (the distance is then never consulted). -/
def dist0 : ℚ → ℚ → ℚ → ℚ → ℚ := fun _ _ _ _ => 0

def baseEvent : EventRec :=
  { id := 1, title := "abc", eventTypePrimary := "wildfire", severityLevel := 3,
    confidenceExtraction := 1/2, country := "kenya", admin1 := some "rift",
    latitude := none, longitude := none, startDate := some 0,
    summaryShort := "abc", sourceCount := 1, createdAt := 0,
    status := "active", mergedIntoId := none, updatedAt := 0 }

def evA : EventRec := { baseEvent with id := 1, sourceCount := 2 }

def evB : EventRec := { baseEvent with id := 2, createdAt := 1000, sourceCount := 1 }

def st0 : DBState :=
  { events := [evA, evB], sources := [], extractions := [], merges := [],
    queue := [], nextId := 3 }

/-- Extraction carrying the spec's example coordinates (lat 95, lng 40):
GeoJSON order means `coordinates = (40, 95)`. -/
def geoEx9540 : Extraction :=
  { title := "t", eventTypePrimary := "wildfire", severityLevel := 3,
    confidenceExtraction := 8/10, confidenceGeolocation := 9/10,
    location :=
      { geometry := some { coordinates := some (40, 95), precision := none },
        admin := { country := "", admin1 := none, admin2 := none, locality := none },
        description := none },
    temporalStart := none, temporalEnd := none,
    summaryShort := "s", summaryDetailed := "d" }

/-- Extraction with the axes the other way round (lat 40, lng 95), admin
country "united states" (the spec's outside-bounds example). -/
def geoEx4095 : Extraction :=
  { title := "t", eventTypePrimary := "wildfire", severityLevel := 3,
    confidenceExtraction := 8/10, confidenceGeolocation := 9/10,
    location :=
      { geometry := some { coordinates := some (95, 40), precision := none },
        admin := { country := "united states", admin1 := none, admin2 := none,
                   locality := none },
        description := none },
    temporalStart := none, temporalEnd := none,
    summaryShort := "s", summaryDetailed := "d" }

/-! ## C7 — consumer backoff growth and cap -/

/-- C7 counterexample: at attempt 6 (n = 5) with zero jitter the computed
delay is the 900 s cap, strictly below the doubled un-jittered base delay
of attempt 5 (960 s), so the claimed growth inequality fails. -/
theorem backoff_growth_fails_past_cap :
    computeBackoffSeconds 6 0 < 2 * backoffBase 5 := by
  with_unfolding_all decide

/-- C7 (amended): for every attempt `n ≥ 1` and every jitter draw
`r ∈ [0,1)`, the computed delay for attempt `n+1` is at least the doubled
un-jittered base delay of attempt `n` or the 15-minute cap, whichever is
smaller, and it never exceeds the 15-minute cap (900 seconds). -/
theorem computeBackoff_growth_and_cap (n : ℕ) (r : ℚ)
    (hn : 1 ≤ n) (hr0 : 0 ≤ r) (hr1 : r < 1) :
    min (2 * backoffBase n) 900 ≤ computeBackoffSeconds (n + 1) r ∧
    computeBackoffSeconds (n + 1) r ≤ 900 := by
  have hbase : backoffBase (n + 1) = 2 * backoffBase n := by
    unfold backoffBase BASE_RETRY_DELAY_SECONDS
    have h1 : n + 1 - 1 = (n - 1) + 1 := by omega
    rw [h1, pow_succ]
    ring
  have hpos : (0:ℚ) ≤ backoffBase (n + 1) := by
    unfold backoffBase BASE_RETRY_DELAY_SECONDS
    positivity
  have hjit : (0:ℚ) ≤ r * (2/10) * backoffBase (n + 1) := by positivity
  constructor
  · unfold computeBackoffSeconds
    rw [← hbase]
    have h900 : (15 : ℚ) * 60 = 900 := by norm_num
    rw [h900]
    exact min_le_min (by linarith) le_rfl
  · unfold computeBackoffSeconds
    have := min_le_right (backoffBase (n + 1) + r * (2/10) * backoffBase (n + 1)) ((15:ℚ) * 60)
    linarith

/-- C7 witness: the amended bound instantiated at `n = 1`, `r = 0`. -/
theorem computeBackoff_growth_and_cap_witness :
    min (2 * backoffBase 1) 900 ≤ computeBackoffSeconds 2 0 ∧
    computeBackoffSeconds 2 0 ≤ 900 :=
  computeBackoff_growth_and_cap 1 0 (by decide) (by decide) (by decide)

/-! ## C3 — merge confidence formula and monotonicity -/

/-- C3 counterexample: with previous confidence 1 (which lies in [0,1])
and one absorbed source, the post-merge confidence is the cap 0.98,
strictly less than before — confidence decreased. -/
theorem merge_confidence_can_decrease :
    (mergedPrimary { baseEvent with confidenceExtraction := 1 } evB 0).confidenceExtraction <
      ({ baseEvent with confidenceExtraction := 1 } : EventRec).confidenceExtraction := by
  with_unfolding_all decide

/-- C3 (amended): after a merge the primary's extraction-confidence
equals `min(previous + absorbedSourceCount × 0.05, 0.98)`, and it never
decreases provided the previous confidence does not already exceed the
0.98 cap. -/
theorem merge_confidence_formula_and_monotone (ex ne : EventRec) (now : ℚ)
    (h : ex.confidenceExtraction ≤ 98/100) :
    (mergedPrimary ex ne now).confidenceExtraction =
      min (ex.confidenceExtraction + (ne.sourceCount : ℚ) * (5/100)) (98/100) ∧
    ex.confidenceExtraction ≤ (mergedPrimary ex ne now).confidenceExtraction := by
  constructor
  · rfl
  · show ex.confidenceExtraction ≤
      min (ex.confidenceExtraction + (ne.sourceCount : ℚ) * SOURCE_CONFIDENCE_BOOST)
        MAX_BOOSTED_CONFIDENCE
    unfold SOURCE_CONFIDENCE_BOOST MAX_BOOSTED_CONFIDENCE
    have hb : (0:ℚ) ≤ (ne.sourceCount : ℚ) * (5/100) := by positivity
    exact le_min (by linarith) h

/-- C3 witness: the amended statement instantiated at confidence 1/2 and
one absorbed source. -/
theorem merge_confidence_formula_and_monotone_witness :
    (mergedPrimary baseEvent evB 0).confidenceExtraction =
      min (baseEvent.confidenceExtraction + (evB.sourceCount : ℚ) * (5/100)) (98/100) ∧
    baseEvent.confidenceExtraction ≤ (mergedPrimary baseEvent evB 0).confidenceExtraction :=
  merge_confidence_formula_and_monotone baseEvent evB 0 (by with_unfolding_all decide)

/-! ## C5 — axis-swap flagging for |lat| > 90, |lng| ≤ 90 -/

/-- C5 counterexample: at (lat 95, lng 40) the validator does not apply a
penalty leaving confidence above zero with a swap suggestion — it
rejects: confidence exactly 0 and a nullify suggestion. -/
theorem swap_claim_false_at_lat95_lng40 :
    ¬ (0 < (validateGeolocation geoEx9540).adjustedConfidence ∧
       (validateGeolocation geoEx9540).suggestedFix = some FixAction.swap) := by
  with_unfolding_all decide

/-- C5 (amended): whenever |lat| > 90 and |lng| ≤ 90, the range check has
already requested nullification, so the swap branch (guarded by
`!shouldNullifyCoords`) is unreachable: the validator rejects the point
with confidence exactly 0 and suggests nullify, never swap. -/
theorem swap_branch_unreachable (ex : Extraction) (g : Geometry) (lng lat : ℚ)
    (hg : ex.location.geometry = some g) (hc : g.coordinates = some (lng, lat))
    (hlat : 90 < |lat|) (hlng : |lng| ≤ 90) :
    (validateGeolocation ex).adjustedConfidence = 0 ∧
    (validateGeolocation ex).shouldNullifyCoords = true ∧
    (validateGeolocation ex).suggestedFix = some FixAction.nullify := by
  have h1 : lat < -90 ∨ lat > 90 := by
    rcases lt_abs.mp hlat with h | h
    · exact Or.inr h
    · exact Or.inl (by linarith)
  have h2 : ¬ (lng < -180 ∨ lng > 180) := by
    obtain ⟨ha, hb⟩ := abs_le.mp hlng
    push_neg
    constructor <;> linarith
  have e1 : (lat < -90 ∨ lat > 90) = True := eq_true h1
  have e2 : (lng < -180 ∨ lng > 180) = False := eq_false h2
  simp [validateGeolocation, hg, hc, e1, e2]

/-- C5 witness for the amended statement, at (lat 95, lng 40). -/
theorem swap_branch_unreachable_witness :
    (validateGeolocation geoEx9540).adjustedConfidence = 0 ∧
    (validateGeolocation geoEx9540).shouldNullifyCoords = true ∧
    (validateGeolocation geoEx9540).suggestedFix = some FixAction.nullify :=
  swap_branch_unreachable geoEx9540 _ 40 95 rfl rfl
    (by rw [show |(95:ℚ)| = 95 from abs_of_nonneg (by norm_num)]; norm_num)
    (by rw [show |(40:ℚ)| = 40 from abs_of_nonneg (by norm_num)]; norm_num)

/-! ## C6 — rejection of out-of-range coordinates and the 0.1 floor -/

/-- C6: a present coordinate pair outside the valid ranges is rejected
(adjusted confidence exactly 0, coordinates to be cleared); a present
pair inside the ranges is never rejected and its adjusted confidence is
floored at 0.1, hence strictly above zero, however many issues were
found. -/
theorem geoValidation_reject_and_floor (ex : Extraction) (g : Geometry) (lng lat : ℚ)
    (hg : ex.location.geometry = some g) (hc : g.coordinates = some (lng, lat)) :
    ((lat < -90 ∨ lat > 90 ∨ lng < -180 ∨ lng > 180) →
      (validateGeolocation ex).adjustedConfidence = 0 ∧
      (validateGeolocation ex).shouldNullifyCoords = true) ∧
    ((-90 ≤ lat ∧ lat ≤ 90 ∧ -180 ≤ lng ∧ lng ≤ 180) →
      (1/10 : ℚ) ≤ (validateGeolocation ex).adjustedConfidence ∧
      (validateGeolocation ex).shouldNullifyCoords = false) := by
  constructor
  · intro h
    have enull : ((lat < -90 ∨ lat > 90) ∨ (lng < -180 ∨ lng > 180)) = True :=
      eq_true (by tauto)
    simp [validateGeolocation, hg, hc, enull]
  · rintro ⟨h1, h2, h3, h4⟩
    have e1 : (lat < -90 ∨ lat > 90) = False := by
      apply eq_false
      push_neg
      constructor <;> linarith
    have e2 : (lng < -180 ∨ lng > 180) = False := by
      apply eq_false
      push_neg
      constructor <;> linarith
    simp [validateGeolocation, hg, hc, e1, e2]

/-- C6 witness: (lat 95, lng 40) rejected with confidence 0; in-range
(lat 40, lng 95) gets confidence ≥ 0.1 and no rejection. -/
theorem geoValidation_reject_and_floor_witness :
    ((validateGeolocation geoEx9540).adjustedConfidence = 0 ∧
     (validateGeolocation geoEx9540).shouldNullifyCoords = true) ∧
    ((1/10 : ℚ) ≤ (validateGeolocation geoEx4095).adjustedConfidence ∧
     (validateGeolocation geoEx4095).shouldNullifyCoords = false) :=
  ⟨(geoValidation_reject_and_floor geoEx9540 _ 40 95 rfl rfl).1 (by norm_num),
   (geoValidation_reject_and_floor geoEx4095 _ 95 40 rfl rfl).2 (by norm_num)⟩

/-! ## C9 — poison messages -/

/-- C9: a received message whose body is unparsable JSON, or parses to a
value the envelope guard rejects, is deleted immediately: no job handler
is ever invoked on it and no visibility change (retry) is scheduled. -/
theorem poison_deleted_never_retried (body : Option Json) (receiveCount : Option ℕ)
    (outcome : Option Bool) (r : ℚ)
    (h : body = none ∨ ∀ v, body = some v → isJobMessage v = false) :
    handleMessage (parsedEnvelope body) receiveCount outcome r = [ConsumerAction.deleteMsg] ∧
    ∀ a ∈ handleMessage (parsedEnvelope body) receiveCount outcome r,
      (∀ jt, a ≠ ConsumerAction.invokeHandler jt) ∧
      (∀ d, a ≠ ConsumerAction.changeVisibility d) := by
  have hp : parsedEnvelope body = none := by
    rcases h with h | h
    · rw [h]; rfl
    · cases body with
      | none => rfl
      | some v => simp [parsedEnvelope, h v rfl]
  rw [hp]
  refine ⟨rfl, ?_⟩
  intro a ha
  simp only [handleMessage, List.mem_singleton] at ha
  subst ha
  exact ⟨fun jt => by simp, fun d => by simp⟩

/-- C9 witness: a parse failure and a well-formed-JSON-but-invalid
envelope are both deleted without handler or retry. -/
theorem poison_deleted_never_retried_witness :
    handleMessage (parsedEnvelope (some (Json.str "oops"))) (some 1) none 0 =
      [ConsumerAction.deleteMsg] ∧
    ∀ a ∈ handleMessage (parsedEnvelope (some (Json.str "oops"))) (some 1) none 0,
      (∀ jt, a ≠ ConsumerAction.invokeHandler jt) ∧
      (∀ d, a ≠ ConsumerAction.changeVisibility d) :=
  poison_deleted_never_retried (some (Json.str "oops")) (some 1) none 0
    (Or.inr (fun v hv => by cases hv; rfl))

/-! ## C10 — coordinate 0 is treated as missing (JS truthiness) -/

def stripCoords (e : EventRec) : EventRec :=
  { e with latitude := none, longitude := none }

/-- C10: an event whose latitude or longitude is exactly 0 behaves in
the clustering engine exactly like one with no coordinates at all:
candidate narrowing falls back to the admin1 filter and the similarity
score uses the subdivision component — replacing such coordinates by
null changes neither. -/
theorem zero_coordinate_treated_as_missing (dist : ℚ → ℚ → ℚ → ℚ → ℚ)
    (e other : EventRec) (cands : List EventRec)
    (h : e.latitude = some 0 ∨ e.longitude = some 0) :
    narrowCandidates dist e cands = narrowCandidates dist (stripCoords e) cands ∧
    calculateSimilarity dist e other = calculateSimilarity dist (stripCoords e) other ∧
    calculateSimilarity dist other e = calculateSimilarity dist other (stripCoords e) := by
  have hfalse : jsNumTruthy e.latitude = false ∨ jsNumTruthy e.longitude = false := by
    rcases h with h | h
    · left; rw [h]; rfl
    · right; rw [h]; rfl
  have hT : ¬ (jsNumTruthy e.latitude = true ∧ jsNumTruthy e.longitude = true) := by
    rintro ⟨ha, hb⟩
    rcases hfalse with h' | h' <;> simp [h'] at ha hb
  have hS : ¬ (jsNumTruthy (stripCoords e).latitude = true ∧
               jsNumTruthy (stripCoords e).longitude = true) := by
    rintro ⟨ha, _⟩
    simp [stripCoords, jsNumTruthy] at ha
  have hc1 : ¬ (jsNumTruthy e.latitude = true ∧ jsNumTruthy e.longitude = true ∧
      jsNumTruthy other.latitude = true ∧ jsNumTruthy other.longitude = true) :=
    fun hh => hT ⟨hh.1, hh.2.1⟩
  have hc2 : ¬ (jsNumTruthy (stripCoords e).latitude = true ∧
      jsNumTruthy (stripCoords e).longitude = true ∧
      jsNumTruthy other.latitude = true ∧ jsNumTruthy other.longitude = true) :=
    fun hh => hS ⟨hh.1, hh.2.1⟩
  have hc3 : ¬ (jsNumTruthy other.latitude = true ∧ jsNumTruthy other.longitude = true ∧
      jsNumTruthy e.latitude = true ∧ jsNumTruthy e.longitude = true) :=
    fun hh => hT ⟨hh.2.2.1, hh.2.2.2⟩
  have hc4 : ¬ (jsNumTruthy other.latitude = true ∧ jsNumTruthy other.longitude = true ∧
      jsNumTruthy (stripCoords e).latitude = true ∧
      jsNumTruthy (stripCoords e).longitude = true) :=
    fun hh => hS ⟨hh.2.2.1, hh.2.2.2⟩
  refine ⟨?_, ?_, ?_⟩
  · unfold narrowCandidates
    rw [if_neg hT, if_neg hS]
    rfl
  · unfold calculateSimilarity simParts simGeoPart
    rw [if_neg hc1, if_neg hc2]
    rfl
  · unfold calculateSimilarity simParts simGeoPart
    rw [if_neg hc3, if_neg hc4]
    rfl

/-- C10 witness: a concrete event on the equator (latitude exactly 0). -/
theorem zero_coordinate_treated_as_missing_witness :
    narrowCandidates dist0 { baseEvent with latitude := some 0, longitude := some 5 } [evA] =
      narrowCandidates dist0
        (stripCoords { baseEvent with latitude := some 0, longitude := some 5 }) [evA] ∧
    calculateSimilarity dist0 { baseEvent with latitude := some 0, longitude := some 5 } evA =
      calculateSimilarity dist0
        (stripCoords { baseEvent with latitude := some 0, longitude := some 5 }) evA ∧
    calculateSimilarity dist0 evA { baseEvent with latitude := some 0, longitude := some 5 } =
      calculateSimilarity dist0 evA
        (stripCoords { baseEvent with latitude := some 0, longitude := some 5 }) :=
  zero_coordinate_treated_as_missing dist0
    { baseEvent with latitude := some 0, longitude := some 5 } evA [evA] (Or.inl rfl)

/-! ## C2 — similarity: missing components and the [0,1] bound -/

/-- The Jaccard text similarity always lies in [0,1]. -/
theorem calculateTextSimilarity_mem_unit (t1 t2 : String) :
    0 ≤ calculateTextSimilarity t1 t2 ∧ calculateTextSimilarity t1 t2 ≤ 1 := by
  simp only [calculateTextSimilarity]
  generalize hw1 : (tokenize t1).dedup = w1
  generalize hw2 : (tokenize t2).dedup = w2
  have hn1 : w1.Nodup := hw1 ▸ List.nodup_dedup _
  split_ifs with h1 h2
  · exact ⟨zero_le_one, le_refl 1⟩
  · exact ⟨le_refl 0, zero_le_one⟩
  · push_neg at h2
    have hne1 : w1 ≠ [] := by
      intro hnil
      exact h2.1 (by simp [hnil])
    have husub : w1.filter (fun w => w2.contains w) ⊆ (w1 ++ w2).dedup := by
      intro x hx
      exact List.mem_dedup.mpr (List.mem_append_left _ (List.mem_of_mem_filter hx))
    have hlen : (w1.filter (fun w => w2.contains w)).length ≤ ((w1 ++ w2).dedup).length :=
      ((hn1.filter _).subperm husub).length_le
    have hupos : 0 < ((w1 ++ w2).dedup).length := by
      obtain ⟨a, ha⟩ := List.exists_mem_of_ne_nil w1 hne1
      exact List.length_pos_of_mem (List.mem_dedup.mpr (List.mem_append_left _ ha))
    have hup : (0:ℚ) < (((w1 ++ w2).dedup).length : ℚ) := by exact_mod_cast hupos
    constructor
    · positivity
    · rw [div_le_one hup]
      exact_mod_cast hlen

/-- Clamp bound: `max 0 x ∈ [0,1]` whenever `x ≤ 1`. -/
theorem unitClamp (x : ℚ) (h : x ≤ 1) : 0 ≤ max 0 x ∧ max 0 x ≤ 1 :=
  ⟨le_max_left 0 x, max_le zero_le_one h⟩

/-- Scaling: a value in [0,1] times a non-negative weight stays in
`[0, weight]`. -/
theorem unitScale (x w : ℚ) (hx0 : 0 ≤ x) (hx1 : x ≤ 1) (hw : 0 ≤ w) :
    0 ≤ x * w ∧ x * w ≤ w := by
  constructor
  · positivity
  · nlinarith

/-- C2 (amended): in the source's similarity, a component with missing
inputs contributes 0 to the numerator while its weight is still added to
the denominator — the accumulated weight is always exactly 1 — and the
returned score therefore still lies in [0,1]. -/
theorem similarity_full_denominator_bounded (dist : ℚ → ℚ → ℚ → ℚ → ℚ)
    (e1 e2 : EventRec) (hd : ∀ a b c d, 0 ≤ dist a b c d) :
    (simParts dist e1 e2).2 = 1 ∧
    0 ≤ calculateSimilarity dist e1 e2 ∧ calculateSimilarity dist e1 e2 ≤ 1 := by
  obtain ⟨ht0, ht1⟩ := calculateTextSimilarity_mem_unit e1.title e2.title
  obtain ⟨hu0, hu1⟩ := calculateTextSimilarity_mem_unit e1.summaryShort e2.summaryShort
  obtain ⟨htp0, htp1⟩ := unitScale _ (25/100 : ℚ) ht0 ht1 (by norm_num)
  obtain ⟨hup0, hup1⟩ := unitScale _ (15/100 : ℚ) hu0 hu1 (by norm_num)
  have hdist : (0:ℚ) ≤ dist (e1.latitude.getD 0) (e1.longitude.getD 0)
      (e2.latitude.getD 0) (e2.longitude.getD 0) := hd _ _ _ _
  obtain ⟨hg0, hg1⟩ := unitClamp
    (1 - dist (e1.latitude.getD 0) (e1.longitude.getD 0)
          (e2.latitude.getD 0) (e2.longitude.getD 0) / MAX_DISTANCE_KM)
    (by
      unfold MAX_DISTANCE_KM
      have : (0:ℚ) ≤ dist (e1.latitude.getD 0) (e1.longitude.getD 0)
          (e2.latitude.getD 0) (e2.longitude.getD 0) / 50 := by positivity
      linarith)
  obtain ⟨hgp0, hgp1⟩ := unitScale _ (3/10 : ℚ) hg0 hg1 (by norm_num)
  have hgeo : 0 ≤ (simGeoPart dist e1 e2).1 ∧ (simGeoPart dist e1 e2).1 ≤ 3/10 ∧
      (simGeoPart dist e1 e2).2 = 3/10 := by
    unfold simGeoPart
    split_ifs
    · exact ⟨hgp0, hgp1, rfl⟩
    · exact ⟨by norm_num, by norm_num, rfl⟩
    · exact ⟨le_refl 0, by norm_num, rfl⟩
  have htem : 0 ≤ (simTemporalPart e1 e2).1 ∧ (simTemporalPart e1 e2).1 ≤ 1/10 ∧
      (simTemporalPart e1 e2).2 = 1/10 := by
    unfold simTemporalPart
    rcases e1.startDate with _ | d1 <;> rcases e2.startDate with _ | d2
    · exact ⟨le_refl 0, by norm_num, rfl⟩
    · exact ⟨le_refl 0, by norm_num, rfl⟩
    · exact ⟨le_refl 0, by norm_num, rfl⟩
    · obtain ⟨hm0, hm1⟩ := unitClamp (1 - |d1 - d2| / (1000 * 60 * 60 * 24) / 7)
        (by
          have : (0:ℚ) ≤ |d1 - d2| / (1000 * 60 * 60 * 24) / 7 := by positivity
          linarith)
      obtain ⟨hq0, hq1⟩ := unitScale _ (1/10 : ℚ) hm0 hm1 (by norm_num)
      exact ⟨hq0, hq1, rfl⟩
  obtain ⟨hge0, hge1, hge2⟩ := hgeo
  obtain ⟨htm0, htm1, htm2⟩ := htem
  have htype : 0 ≤ (if e1.eventTypePrimary = e2.eventTypePrimary then (2:ℚ)/10 else 0) ∧
      (if e1.eventTypePrimary = e2.eventTypePrimary then (2:ℚ)/10 else 0) ≤ 2/10 := by
    split_ifs <;> constructor <;> norm_num
  obtain ⟨hty0, hty1⟩ := htype
  have hparts : (simParts dist e1 e2).2 = 1 ∧
      0 ≤ (simParts dist e1 e2).1 ∧ (simParts dist e1 e2).1 ≤ 1 := by
    unfold simParts
    refine ⟨?_, ?_, ?_⟩
    · show (2:ℚ)/10 + (simGeoPart dist e1 e2).2 + 25/100 + 15/100 +
        (simTemporalPart e1 e2).2 = 1
      rw [hge2, htm2]
      norm_num
    · show 0 ≤ (if e1.eventTypePrimary = e2.eventTypePrimary then (2:ℚ)/10 else 0) +
        (simGeoPart dist e1 e2).1 + calculateTextSimilarity e1.title e2.title * (25/100) +
        calculateTextSimilarity e1.summaryShort e2.summaryShort * (15/100) +
        (simTemporalPart e1 e2).1
      linarith
    · show (if e1.eventTypePrimary = e2.eventTypePrimary then (2:ℚ)/10 else 0) +
        (simGeoPart dist e1 e2).1 + calculateTextSimilarity e1.title e2.title * (25/100) +
        calculateTextSimilarity e1.summaryShort e2.summaryShort * (15/100) +
        (simTemporalPart e1 e2).1 ≤ 1
      linarith
  refine ⟨hparts.1, ?_, ?_⟩ <;>
    simp only [calculateSimilarity] <;>
    rw [hparts.1, if_pos (by norm_num : (1:ℚ) > 0), div_one]
  · exact hparts.2.1
  · exact hparts.2.2

/-- C2 witness for the amended statement. -/
theorem similarity_full_denominator_bounded_witness :
    (simParts dist0 evA evB).2 = 1 ∧
    0 ≤ calculateSimilarity dist0 evA evB ∧ calculateSimilarity dist0 evA evB ≤ 1 :=
  similarity_full_denominator_bounded dist0 evA evB (fun _ _ _ _ => le_refl 0)

/-- The similarity described by the spec, for comparison: components
with missing inputs (no truthy coordinates and no shared truthy admin1
for the geographic component; a missing start date on either side for
the temporal component) are excluded from both numerator and
denominator; everything else is as in `simParts`. -/
def specSimilarity (dist : ℚ → ℚ → ℚ → ℚ → ℚ) (e1 e2 : EventRec) : ℚ :=
  let typePart : ℚ × ℚ :=
    (if e1.eventTypePrimary = e2.eventTypePrimary then 2/10 else 0, 2/10)
  let geoPart : ℚ × ℚ :=
    if jsNumTruthy e1.latitude ∧ jsNumTruthy e1.longitude ∧
       jsNumTruthy e2.latitude ∧ jsNumTruthy e2.longitude then
      let d := dist (e1.latitude.getD 0) (e1.longitude.getD 0)
                    (e2.latitude.getD 0) (e2.longitude.getD 0)
      (max 0 (1 - d / MAX_DISTANCE_KM) * (3/10), 3/10)
    else if jsStrTruthy e1.admin1 ∧ jsStrTruthy e2.admin1 ∧ e1.admin1 = e2.admin1 then
      (2/10, 3/10)
    else
      (0, 0)
  let titlePart : ℚ × ℚ :=
    (calculateTextSimilarity e1.title e2.title * (25/100), 25/100)
  let summaryPart : ℚ × ℚ :=
    (calculateTextSimilarity e1.summaryShort e2.summaryShort * (15/100), 15/100)
  let temporalPart : ℚ × ℚ :=
    match e1.startDate, e2.startDate with
    | some d1, some d2 =>
      let daysDiff := |d1 - d2| / (1000 * 60 * 60 * 24)
      (max 0 (1 - daysDiff / 7) * (1/10), 1/10)
    | _, _ => (0, 0)
  let score := typePart.1 + geoPart.1 + titlePart.1 + summaryPart.1 + temporalPart.1
  let weights := typePart.2 + geoPart.2 + titlePart.2 + summaryPart.2 + temporalPart.2
  if weights > 0 then score / weights else 0

/-- Two identical events with no coordinates, no admin1 and no start
date. -/
def evPlain : EventRec := { baseEvent with admin1 := none, startDate := none }

/-- C2 counterexample: for `evPlain` against itself the code returns
0.6 — the missing geographic and temporal weights stayed in the
denominator — while the weighted average of only the available
components (type, title, summary, all of which match perfectly) is 1. -/
theorem similarity_keeps_missing_weights :
    calculateSimilarity dist0 evPlain evPlain = 6/10 ∧
    specSimilarity dist0 evPlain evPlain = 1 ∧
    ¬ (calculateSimilarity dist0 evPlain evPlain = specSimilarity dist0 evPlain evPlain) := by
  with_unfolding_all decide

/-! ## C1 / C4 — clustering redelivery and the audit row

`st0` holds an active event 1 (two sources) and event 2 (one source),
identical in type, country, admin1, title, summary and start date, so
their similarity is 0.9 ≥ 0.7.  Running the clustering job for event 2
merges it into event 1; running it again re-merges. -/

/-- C1 (code bug): redelivering the clustering job for event 2 — which
the first run left with status `merged` — is not a no-op: `clusterEvent`
never checks the status, finds event 1 again, and merges again, raising
event 1's `source_count` from 3 to 4 and appending a second audit row
(so `clusterEvent` twice differs from `clusterEvent` once). -/
theorem cluster_redelivery_merges_again :
    (clusterEvent dist0 5000 2 st0).map (fun p =>
        (p.2.merges.length,
         (p.2.events.find? (fun e => e.id = 1)).map (fun e => e.sourceCount),
         (p.2.events.find? (fun e => e.id = 2)).map (fun e => e.status))) =
      some (1, some 3, some "merged") ∧
    ((clusterEvent dist0 5000 2 st0).bind (fun p => clusterEvent dist0 6000 2 p.2)).map
        (fun p =>
        (p.2.merges.length,
         (p.2.events.find? (fun e => e.id = 1)).map (fun e => e.sourceCount))) =
      some (2, some 4) :=
  ⟨by with_unfolding_all rfl, by with_unfolding_all rfl⟩

/-- C4 (code bug): the merge of event 2 into event 1 is decided by the
computed similarity 9/10 ≥ 0.7, yet the audit row written for that merge
records `similarity_score = 0` (the source inserts the literal `${0}`),
not the score that met the threshold. -/
theorem audit_records_zero_not_similarity :
    calculateSimilarity dist0 evB evA = 9/10 ∧
    MIN_SIMILARITY_SCORE ≤ calculateSimilarity dist0 evB evA ∧
    (clusterEvent dist0 5000 2 st0).map (fun p => p.2.merges) =
      some [{ primaryEventId := 1, mergedEventId := 2, similarityScore := 0,
              mergedAt := 5000 }] ∧
    (0 : ℚ) ≠ calculateSimilarity dist0 evB evA := by
  have hsim : calculateSimilarity dist0 evB evA = 9/10 := by with_unfolding_all rfl
  refine ⟨hsim, ?_, ?_, ?_⟩
  · rw [hsim]
    unfold MIN_SIMILARITY_SCORE
    norm_num
  · with_unfolding_all rfl
  · rw [hsim]
    norm_num

/-! ## C8 — extraction-job idempotency -/

/-- Linking a source to an event preserves the success of the
`find?`-by-id lookup. -/
theorem find_source_after_link (l : List SourceRec) (sid eid : ℕ)
    (h : (l.find? (fun s => s.id = sid)).isSome = true) :
    ((l.map (fun s => if s.id = sid then { s with eventId := some eid } else s)).find?
      (fun s => s.id = sid)).isSome = true := by
  induction l with
  | nil => simp at h
  | cons a as ih =>
    rw [List.map_cons]
    by_cases ha : a.id = sid
    · rw [List.find?_cons_of_pos]
      · rfl
      · rw [if_pos ha]
        exact decide_eq_true ha
    · rw [if_neg ha, List.find?_cons_of_neg _ (by simpa using ha)]
      rw [List.find?_cons_of_neg _ (by simpa using ha)] at h
      exact ih h

/-- After a successful `finishExtraction`, the store has one more event,
one more extraction row for the source, and a rerun of the job is a
no-op. -/
theorem finishExtraction_success (st : DBState) (msg : ExtractMsg) (quality now now2 : ℚ)
    (cap : Bool → Extraction) (schemaValid : Extraction → Bool)
    (ex : Extraction) (tr0 tr : List ExtractAction) (res : ExtractResult) (st1 : DBState)
    (hforce : msg.forceReextract = false)
    (hfind : (st.sources.find? (fun s => s.id = msg.sourceId)).isSome = true)
    (h : finishExtraction st msg quality now ex tr0 = (Except.ok (some res), st1, tr)) :
    runExtractJob cap schemaValid quality now2 msg st1 = (Except.ok none, st1, []) ∧
    st1.events.length = st.events.length + 1 ∧
    countExtractions st1 msg.sourceId = countExtractions st msg.sourceId + 1 := by
  simp only [finishExtraction, saveExtractionResult, Prod.mk.injEq] at h
  obtain ⟨-, hst, -⟩ := h
  subst hst
  refine ⟨?_, ?_, ?_⟩
  · obtain ⟨s', hs'⟩ := Option.isSome_iff_exists.mp
      (find_source_after_link st.sources msg.sourceId st.nextId hfind)
    have hcount : countExtractions
        { st with
          events := st.events ++ [eventFromExtraction (applyGeoValidation ex (validateGeolocation ex)) st.nextId now]
          sources := st.sources.map (fun s =>
            if s.id = msg.sourceId then { s with eventId := some st.nextId } else s)
          extractions := st.extractions ++
            [{ sourceId := msg.sourceId, eventId := st.nextId, qualityScore := quality }]
          nextId := st.nextId + 1
          queue := st.queue ++ [{ eventId := st.nextId, correlationId := msg.correlationId }] }
        msg.sourceId = countExtractions st msg.sourceId + 1 := by
      simp [countExtractions, List.filter_append]
    simp only [runExtractJob, hs']
    rw [if_pos]
    constructor
    · simp [hforce]
    · simp [hasExistingExtraction, hcount]
  · simp
  · simp [countExtractions, List.filter_append]

/-- C8: with the force flag unset, (a) when an extraction row already
exists for the source the job returns immediately, leaving the store
untouched and performing no action (no status write, no capability call,
no event creation, no enqueue); hence (b) a successful first run — which
creates exactly one event and one extraction row — makes any rerun a
no-op, so two sequential runs produce exactly one event and one
extraction record. -/
theorem extractJob_idempotent (cap : Bool → Extraction) (schemaValid : Extraction → Bool)
    (quality now now2 : ℚ) (msg : ExtractMsg) (st : DBState)
    (hforce : msg.forceReextract = false) :
    ((st.sources.find? (fun s => s.id = msg.sourceId)).isSome = true →
     hasExistingExtraction st msg.sourceId = true →
     runExtractJob cap schemaValid quality now msg st = (Except.ok none, st, [])) ∧
    (∀ res st1 tr,
      runExtractJob cap schemaValid quality now msg st = (Except.ok (some res), st1, tr) →
      runExtractJob cap schemaValid quality now2 msg st1 = (Except.ok none, st1, []) ∧
      st1.events.length = st.events.length + 1 ∧
      countExtractions st1 msg.sourceId = countExtractions st msg.sourceId + 1) := by
  constructor
  · intro hs hex
    obtain ⟨src, hsrc⟩ := Option.isSome_iff_exists.mp hs
    simp only [runExtractJob, hsrc]
    rw [if_pos]
    constructor
    · simp [hforce]
    · exact hex
  · intro res st1 tr h
    simp only [runExtractJob] at h
    cases hfind : st.sources.find? (fun s => s.id = msg.sourceId) with
    | none =>
      rw [hfind] at h
      simp at h
    | some source =>
      rw [hfind] at h
      have hfs : (st.sources.find? (fun s => s.id = msg.sourceId)).isSome = true := by
        rw [hfind]; rfl
      repeat' split at h
      all_goals first
        | exact finishExtraction_success st msg quality now now2 cap schemaValid
            _ _ _ res st1 hforce hfs h
        | simp at h

/-- C8 witness: a store that already holds an extraction row for
source 7 — the job with force unset returns `none` and changes
nothing. -/
theorem extractJob_idempotent_witness :
    runExtractJob (fun _ => geoEx9540) (fun _ => true) 0 0
      { sourceId := 7, forceReextract := false, correlationId := "c" }
      { events := [], sources := [{ id := 7, snippet := some "", eventId := none,
                                    extractionStatus := none }],
        extractions := [{ sourceId := 7, eventId := 1, qualityScore := 0 }],
        merges := [], queue := [], nextId := 1 } =
      (Except.ok none,
       ({ events := [], sources := [{ id := 7, snippet := some "", eventId := none,
                                      extractionStatus := none }],
          extractions := [{ sourceId := 7, eventId := 1, qualityScore := 0 }],
          merges := [], queue := [], nextId := 1 } : DBState), []) :=
  (extractJob_idempotent (fun _ => geoEx9540) (fun _ => true) 0 0 0
    { sourceId := 7, forceReextract := false, correlationId := "c" }
    { events := [], sources := [{ id := 7, snippet := some "", eventId := none,
                                  extractionStatus := none }],
      extractions := [{ sourceId := 7, eventId := 1, qualityScore := 0 }],
      merges := [], queue := [], nextId := 1 } rfl).1 (by decide) (by decide)

end ConservationAtlas
